import Mathlib

/-!
Shallow embedding of `src/assets/scripts/client/environment/AtmosphereModel.js`
(the openScope atmosphere model).

Numbers are modelled as exact reals together with an explicit NaN marker
(`JNum`), because the JavaScript module stores a non-numeric string into
`_seaLevelTemperature` and every later arithmetic step on that value yields
NaN under the ToNumber coercion rules. Gradient objects keyed by altitude are
modelled as functions from rationals (the possible numeric keys used by the
accessor) to `Option JNum`, where `none` is a missing key (JavaScript
`undefined`). Methods that throw are modelled with `Except`.

The constants file `src/assets/scripts/client/constants/environmentConstants.js`
and the helpers `vectorize_2d`, `vscale` and `degreesToRadians` are imported by
the module but are not part of the provided sources; they are modelled from the
spec where noted.
-/

open scoped Classical

/-- A JavaScript floating-point value as this module uses them: NaN or a real
number. Infinities never arise in the modelled computations. -/
inductive JNum : Type where
  | nan : JNum
  | val : ℝ → JNum

/-- JS subtraction `a - b`: NaN propagates. -/
noncomputable def jsub : JNum → JNum → JNum
  | JNum.val x, JNum.val y => JNum.val (x - y)
  | _, _ => JNum.nan

/-- JS multiplication `a * b`: NaN propagates. -/
noncomputable def jmul : JNum → JNum → JNum
  | JNum.val x, JNum.val y => JNum.val (x * y)
  | _, _ => JNum.nan

/-- JS division `a / b`: NaN propagates. A zero divisor is mapped to NaN; in
JavaScript it would give a signed infinity, but no computation of this module
ever divides by a numeric zero, so the two models never differ on a reachable
input. -/
noncomputable def jdiv : JNum → JNum → JNum
  | JNum.val x, JNum.val y => if y = 0 then JNum.nan else JNum.val (x / y)
  | _, _ => JNum.nan

/-- JS exponentiation `a ** b` for the one exponent this module uses
(5.255876329, not an integer): NaN propagates, and a negative base gives NaN
exactly as `**` does for a non-integral exponent; a nonnegative base follows
real exponentiation. -/
noncomputable def jpow : JNum → ℝ → JNum
  | JNum.val x, y => if x < 0 then JNum.nan else JNum.val (x ^ y)
  | _, _ => JNum.nan

/-- JS strict greater-than `a > b`: any comparison involving NaN is false. -/
noncomputable def jGtb : JNum → JNum → Bool
  | JNum.val x, JNum.val y => decide (y < x)
  | _, _ => false

/-- Reading a gradient entry for use in arithmetic: a present key gives its
value, a missing key gives `undefined`, which the arithmetic coerces to NaN. -/
def jofLookup : Option JNum → JNum
  | some x => x
  | none => JNum.nan

/-- The values `_seaLevelTemperature` can hold in the source: a number, or the
string the method `_initTemperatureFromSurfaceTemperature` unconditionally
stores. -/
inductive JVal : Type where
  | num : ℝ → JVal
  | str : String → JVal

/-- The ToNumber coercion applied when `_seaLevelTemperature` is used in
arithmetic: a number converts to itself; the only string ever stored,
"calculated new value", is not numeric, so it converts to NaN. -/
def JVal.toJNum : JVal → JNum
  | JVal.num x => JNum.val x
  | JVal.str _ => JNum.nan

/-- The error values the module can throw: `TypeError` (thrown explicitly by
`getTemperatureAtActualAltitude`, and raised by the runtime when a property of
`undefined` is read). -/
inductive JSError : Type where
  | typeError : String → JSError

namespace ENVIRONMENT

/-- Modelled from the spec: `ENVIRONMENT.DEFAULT_SEA_LEVEL_TEMPERATURE_K`, the
documented standard-atmosphere sea-level temperature in Kelvin (288.15 K); the
constants file `environmentConstants.js` is not among the provided sources. -/
noncomputable def DEFAULT_SEA_LEVEL_TEMPERATURE_K : ℝ := 288.15

/-- Modelled from the spec: the constant named (without the `_K` suffix) at
line 123 of the source; its value never reaches an observable result because
the method overwrites it on the next line, so it is given the same standard
sea-level temperature value. -/
noncomputable def DEFAULT_SEA_LEVEL_TEMPERATURE : ℝ := 288.15

/-- Modelled from the spec: `ENVIRONMENT.DEFAULT_SEA_LEVEL_PRESSURE_INHG`, the
documented standard-atmosphere sea-level pressure in inches of mercury. -/
noncomputable def DEFAULT_SEA_LEVEL_PRESSURE_INHG : ℝ := 29.92

/-- Modelled from the spec: the documented default sea-level wind vector (calm
wind, both components zero). -/
noncomputable def DEFAULT_SEA_LEVEL_WIND_VECTOR : ℝ × ℝ := (0, 0)

end ENVIRONMENT

/-- Modelled from the spec: the unit converter `degreesToRadians` from
`utilities/unitConverters.js`, not among the provided sources. -/
noncomputable def degreesToRadians (angle : ℝ) : ℝ := angle * (Real.pi / 180)

/-- Modelled from the spec: `vectorize_2d` from `math/vector.js`, not among the
provided sources; forms a unit vector at the given heading. -/
noncomputable def vectorize_2d (direction : ℝ) : ℝ × ℝ :=
  (Real.sin direction, Real.cos direction)

/-- Modelled from the spec: `vscale` from `math/vector.js`, not among the
provided sources; scales a 2-D vector componentwise. -/
noncomputable def vscale (v : ℝ × ℝ) (factor : ℝ) : ℝ × ℝ :=
  (v.1 * factor, v.2 * factor)

/-- The `surfaceWind` input record: `angle` and `speed`. -/
structure SurfaceWind : Type where
  angle : ℝ
  speed : ℝ

/-- The construction input `data`: each field may be absent (`none`). -/
structure ConstructionData : Type where
  surfaceTemperature : Option ℝ
  surfaceElevation : Option ℝ
  surfaceWind : Option SurfaceWind

/-- The state of an `AtmosphereModel` instance: the scalar surface conditions
and the three gradient objects (altitude-keyed maps, `none` = missing key). -/
structure AtmosphereModel : Type where
  _seaLevelTemperature : JVal
  _seaLevelPressure : ℝ
  _seaLevelWindVector : Option (ℝ × ℝ)
  _densityGradient : ℚ → Option JNum
  _pressureGradient : ℚ → Option JNum
  _temperatureGradient : ℚ → Option JNum

/-- The body of the troposphere loop of `_initTemperatureGradient` (line 143):
`seaLevelTemperature - (0.00198121311 * alt)`. -/
noncomputable def troposphereTemperatureFormula (seaLevelTemperature : JNum) (alt : ℤ) : JNum :=
  jsub seaLevelTemperature (JNum.val (0.00198121311 * (alt : ℝ)))

/-- The body of the stratosphere loop of `_initTemperatureGradient` (line 148):
`seaLevelTemperature - (0.00198121311 * 36089)`, constant in the altitude. -/
noncomputable def stratosphereTemperatureConstant (seaLevelTemperature : JNum) : JNum :=
  jsub seaLevelTemperature (JNum.val (0.00198121311 * 36089))

/-- The barometric formula of the troposphere loop of `_initPressureGradient`
(lines 103-105): `P0 * ((T0 - 0.00198121311 * alt) / T0) ** 5.255876329`. The
same expression at `alt = 36089` is the `b1ReferencePressure` computed at lines
97-99. -/
noncomputable def troposphereBarometricFormula (seaLevelPressure : ℝ) (seaLevelTemperature : JNum) (alt : ℤ) : JNum :=
  jmul (JNum.val seaLevelPressure)
    (jpow (jdiv (jsub seaLevelTemperature (JNum.val (0.00198121311 * (alt : ℝ)))) seaLevelTemperature)
      5.255876329)

/-- The body of the stratosphere loop of `_initPressureGradient` (line 110):
`b1ReferencePressure * (Math.E ** (-0.0000480634303 * (alt - 36089)))`, with
`b1ReferencePressure` the troposphere formula evaluated at 36089. -/
noncomputable def stratosphereBarometricFormula (seaLevelPressure : ℝ) (seaLevelTemperature : JNum) (alt : ℤ) : JNum :=
  jmul (troposphereBarometricFormula seaLevelPressure seaLevelTemperature 36089)
    (JNum.val (Real.exp (-0.0000480634303 * ((alt : ℝ) - 36089))))

namespace AtmosphereModel

/-- `_initTemperatureFromSurfaceTemperature` (lines 121-127): when the input is
absent the default constant is assigned, but the method then unconditionally
overwrites `_seaLevelTemperature` with the placeholder string
"calculated new value" (line 126), so that string is always the result. -/
noncomputable def _initTemperatureFromSurfaceTemperature (current : JVal) (surfaceTemperature : Option ℝ) : JVal :=
  let _afterDefaultCheck : JVal :=
    match surfaceTemperature with
    | none => JVal.num ENVIRONMENT.DEFAULT_SEA_LEVEL_TEMPERATURE
    | some _ => current
  JVal.str "calculated new value"

/-- `_initWindFromSurfaceWind` (lines 159-165): when `surfaceWind` is absent
the default vector is assigned, but line 164 then unconditionally reads
`surfaceWind.angle`, which throws a TypeError on `undefined`; when the input is
present, the scaled heading vector is produced. -/
noncomputable def _initWindFromSurfaceWind (surfaceWind : Option SurfaceWind) : Except JSError (ℝ × ℝ) :=
  match surfaceWind with
  | none =>
      let _afterDefaultCheck : ℝ × ℝ := ENVIRONMENT.DEFAULT_SEA_LEVEL_WIND_VECTOR
      Except.error (JSError.typeError "Cannot read properties of undefined - reading angle")
  | some w => Except.ok (vscale (vectorize_2d (degreesToRadians w.angle)) w.speed)

/-- `_initPressureGradient` (lines 93-112): the troposphere loop populates the
integer keys -2000 to 36088 with the barometric formula; the stratosphere loop
populates 36089 to 65617 with the exponential decay from the boundary
reference pressure. Any other key is left absent. -/
noncomputable def _initPressureGradient (m : AtmosphereModel) : AtmosphereModel :=
  { m with _pressureGradient := fun alt =>
      if alt.den = 1 ∧ -2000 ≤ alt.num ∧ alt.num < 36089 then
        some (troposphereBarometricFormula m._seaLevelPressure m._seaLevelTemperature.toJNum alt.num)
      else if alt.den = 1 ∧ 36089 ≤ alt.num ∧ alt.num ≤ 65617 then
        some (stratosphereBarometricFormula m._seaLevelPressure m._seaLevelTemperature.toJNum alt.num)
      else none }

/-- `_initTemperatureGradient` (lines 138-150): the troposphere loop populates
the integer keys -2000 to 36088 with the lapse-rate formula; the stratosphere
loop populates 36089 to 65617 with the constant tropopause value. -/
noncomputable def _initTemperatureGradient (m : AtmosphereModel) : AtmosphereModel :=
  { m with _temperatureGradient := fun alt =>
      if alt.den = 1 ∧ -2000 ≤ alt.num ∧ alt.num < 36089 then
        some (troposphereTemperatureFormula m._seaLevelTemperature.toJNum alt.num)
      else if alt.den = 1 ∧ 36089 ≤ alt.num ∧ alt.num ≤ 65617 then
        some (stratosphereTemperatureConstant m._seaLevelTemperature.toJNum)
      else none }

/-- `_initDensityGradient` (lines 74-80): populates the integer keys -2000 to
65617 with `11.796888418 * pressureGradient[alt] / temperatureGradient[alt]`,
reading the two gradients built before it. -/
noncomputable def _initDensityGradient (m : AtmosphereModel) : AtmosphereModel :=
  { m with _densityGradient := fun alt =>
      if alt.den = 1 ∧ -2000 ≤ alt.num ∧ alt.num ≤ 65617 then
        some (jdiv (jmul (JNum.val 11.796888418) (jofLookup (m._pressureGradient alt)))
          (jofLookup (m._temperatureGradient alt)))
      else none }

/-- `_init` (lines 60-72): runs the surface-condition intake and then the three
gradient builders in the source's order; a throw from the wind intake aborts
the whole construction. -/
noncomputable def _init (m : AtmosphereModel) (data : ConstructionData) : Except JSError AtmosphereModel :=
  let m1 := { m with _seaLevelTemperature :=
    _initTemperatureFromSurfaceTemperature m._seaLevelTemperature data.surfaceTemperature }
  match _initWindFromSurfaceWind data.surfaceWind with
  | Except.error e => Except.error e
  | Except.ok windVector =>
      let m2 := { m1 with _seaLevelWindVector := some windVector }
      Except.ok (_initDensityGradient (_initTemperatureGradient (_initPressureGradient m2)))

/-- The constructor (lines 17-51): initializes the scalar fields to the
environment defaults and the gradients to empty objects, then runs `_init`. -/
noncomputable def construct (data : ConstructionData) : Except JSError AtmosphereModel :=
  _init
    { _seaLevelTemperature := JVal.num ENVIRONMENT.DEFAULT_SEA_LEVEL_TEMPERATURE_K
      _seaLevelPressure := ENVIRONMENT.DEFAULT_SEA_LEVEL_PRESSURE_INHG
      _seaLevelWindVector := none
      _densityGradient := fun _ => none
      _pressureGradient := fun _ => none
      _temperatureGradient := fun _ => none } data

end AtmosphereModel

/-- lodash `_inRange(number, start, end)`: `min start end <= number` and
`number < max start end`. -/
def _inRange (number start stop : ℚ) : Prop :=
  min start stop ≤ number ∧ number < max start stop

instance (number start stop : ℚ) : Decidable ( _inRange number start stop) :=
  inferInstanceAs (Decidable (min start stop ≤ number ∧ number < max start stop))

namespace AtmosphereModel

/-- `getTemperatureAtActualAltitude` (lines 183-189): throws a TypeError when
the altitude is not in range per lodash `_inRange`, otherwise returns the
gradient entry (which is `undefined`, here `none`, for a key that was never
populated). -/
def getTemperatureAtActualAltitude (m : AtmosphereModel) (actualAltitude : ℚ) : Except JSError (Option JNum) :=
  if _inRange actualAltitude (-2000) 65617 then
    Except.ok (m._temperatureGradient actualAltitude)
  else
    Except.error (JSError.typeError "Expected altitude within -2000 ft to 65617 ft, but received an out-of-range altitude")

/-- `getActualAltitudeForPressureAltitude` (lines 171-173): the body is empty,
so the call silently evaluates to `undefined`. -/
def getActualAltitudeForPressureAltitude (_m : AtmosphereModel) : Option JNum := none

/-- `getPressureAltitudeForActualAltitude` (lines 175-177): the body is empty,
so the call silently evaluates to `undefined`. -/
def getPressureAltitudeForActualAltitude (_m : AtmosphereModel) : Option JNum := none

/-- `getDensityAltitudeForActualAltitude` (lines 179-181): the body is empty,
so the call silently evaluates to `undefined`. -/
def getDensityAltitudeForActualAltitude (_m : AtmosphereModel) : Option JNum := none

/-- `getSoundSpeedAtActualAltitude` (lines 191-193): the body is empty, so the
call silently evaluates to `undefined`. -/
def getSoundSpeedAtActualAltitude (_m : AtmosphereModel) : Option JNum := none

/-- `getWindAtActualAltitude` (lines 195-197): the body is empty, so the call
silently evaluates to `undefined`. -/
def getWindAtActualAltitude (_m : AtmosphereModel) : Option JNum := none

end AtmosphereModel

/-- A concrete construction input used to instantiate the theorems: no
`surfaceTemperature`, no `surfaceElevation`, a calm surface wind. -/
noncomputable def testData : ConstructionData :=
  { surfaceTemperature := none, surfaceElevation := none
    surfaceWind := some { angle := 0, speed := 0 } }

/-- The model `construct testData` produces, written out. -/
noncomputable def testModel : AtmosphereModel :=
  AtmosphereModel._initDensityGradient (AtmosphereModel._initTemperatureGradient
    (AtmosphereModel._initPressureGradient
      { _seaLevelTemperature := JVal.str "calculated new value"
        _seaLevelPressure := ENVIRONMENT.DEFAULT_SEA_LEVEL_PRESSURE_INHG
        _seaLevelWindVector := some (vscale (vectorize_2d (degreesToRadians 0)) 0)
        _densityGradient := fun _ => none
        _pressureGradient := fun _ => none
        _temperatureGradient := fun _ => none }))

theorem construct_testData : AtmosphereModel.construct testData = Except.ok testModel := rfl

theorem inRange_iff (q : ℚ) : _inRange q (-2000) 65617 ↔ (-2000 ≤ q ∧ q < 65617) := by
  unfold _inRange
  rw [min_eq_left (by norm_num), max_eq_right (by norm_num)]

namespace AtmosphereModel

theorem built_pressureGradient (s : AtmosphereModel) (q : ℚ) :
    (_initDensityGradient (_initTemperatureGradient (_initPressureGradient s)))._pressureGradient q =
      if q.den = 1 ∧ -2000 ≤ q.num ∧ q.num < 36089 then
        some (troposphereBarometricFormula s._seaLevelPressure s._seaLevelTemperature.toJNum q.num)
      else if q.den = 1 ∧ 36089 ≤ q.num ∧ q.num ≤ 65617 then
        some (stratosphereBarometricFormula s._seaLevelPressure s._seaLevelTemperature.toJNum q.num)
      else none := rfl

theorem built_temperatureGradient (s : AtmosphereModel) (q : ℚ) :
    (_initDensityGradient (_initTemperatureGradient (_initPressureGradient s)))._temperatureGradient q =
      if q.den = 1 ∧ -2000 ≤ q.num ∧ q.num < 36089 then
        some (troposphereTemperatureFormula s._seaLevelTemperature.toJNum q.num)
      else if q.den = 1 ∧ 36089 ≤ q.num ∧ q.num ≤ 65617 then
        some (stratosphereTemperatureConstant s._seaLevelTemperature.toJNum)
      else none := rfl

theorem built_densityGradient (s : AtmosphereModel) (q : ℚ) :
    (_initDensityGradient (_initTemperatureGradient (_initPressureGradient s)))._densityGradient q =
      if q.den = 1 ∧ -2000 ≤ q.num ∧ q.num ≤ 65617 then
        some (jdiv (jmul (JNum.val 11.796888418)
            (jofLookup ((_initDensityGradient (_initTemperatureGradient (_initPressureGradient s)))._pressureGradient q)))
          (jofLookup ((_initDensityGradient (_initTemperatureGradient (_initPressureGradient s)))._temperatureGradient q)))
      else none := rfl

theorem construct_ok_shape (data : ConstructionData) (m : AtmosphereModel)
    (h : construct data = Except.ok m) :
    ∃ w : SurfaceWind, data.surfaceWind = some w ∧
      m = _initDensityGradient (_initTemperatureGradient (_initPressureGradient
        { _seaLevelTemperature := JVal.str "calculated new value"
          _seaLevelPressure := ENVIRONMENT.DEFAULT_SEA_LEVEL_PRESSURE_INHG
          _seaLevelWindVector := some (vscale (vectorize_2d (degreesToRadians w.angle)) w.speed)
          _densityGradient := fun _ => none
          _pressureGradient := fun _ => none
          _temperatureGradient := fun _ => none })) := by
  unfold construct _init at h
  cases hw : data.surfaceWind with
  | none =>
      rw [hw] at h
      simp [_initWindFromSurfaceWind] at h
  | some w =>
      rw [hw] at h
      simp only [_initWindFromSurfaceWind, _initTemperatureFromSurfaceTemperature] at h
      refine ⟨w, rfl, ?_⟩
      exact (Except.ok.inj h).symm

/-- Claim C1: for every integer altitude within [-2000, 65617) the accessor
`getTemperatureAtActualAltitude` returns the temperature-gradient entry at that
altitude; for every altitude not within [-2000, 65617) it throws the
out-of-range TypeError; in particular -2001 and 65617 both fail while 65616
succeeds. -/
theorem c1_getTemperatureAtActualAltitude_range (m : AtmosphereModel) :
    (∀ n : ℤ, -2000 ≤ n → n < 65617 →
      m.getTemperatureAtActualAltitude (n : ℚ) = Except.ok (m._temperatureGradient (n : ℚ)))
    ∧ (∀ q : ℚ, ¬ (-2000 ≤ q ∧ q < 65617) →
      m.getTemperatureAtActualAltitude q = Except.error
        (JSError.typeError "Expected altitude within -2000 ft to 65617 ft, but received an out-of-range altitude"))
    ∧ m.getTemperatureAtActualAltitude (-2001) = Except.error
        (JSError.typeError "Expected altitude within -2000 ft to 65617 ft, but received an out-of-range altitude")
    ∧ m.getTemperatureAtActualAltitude 65617 = Except.error
        (JSError.typeError "Expected altitude within -2000 ft to 65617 ft, but received an out-of-range altitude")
    ∧ m.getTemperatureAtActualAltitude 65616 = Except.ok (m._temperatureGradient 65616) := by
  refine ⟨?_, ?_, ?_, ?_, ?_⟩
  · intro n h1 h2
    unfold getTemperatureAtActualAltitude
    rw [if_pos]
    rw [inRange_iff]
    exact ⟨by exact_mod_cast h1, by exact_mod_cast h2⟩
  · intro q hq
    unfold getTemperatureAtActualAltitude
    rw [if_neg]
    rw [inRange_iff]
    exact hq
  · unfold getTemperatureAtActualAltitude
    rw [if_neg (by decide)]
  · unfold getTemperatureAtActualAltitude
    rw [if_neg (by decide)]
  · unfold getTemperatureAtActualAltitude
    rw [if_pos (by decide)]

/-- Claim C10: a non-integer altitude strictly inside (-2000, 65617) passes the
range check of `getTemperatureAtActualAltitude` (no out-of-range throw) and the
lookup finds no entry, so the call returns the missing-entry value
`undefined`. -/
theorem c10_nonInteger_altitude_undefined (data : ConstructionData) (m : AtmosphereModel)
    (h : construct data = Except.ok m) (q : ℚ)
    (hden : q.den ≠ 1) (h1 : -2000 < q) (h2 : q < 65617) :
    m.getTemperatureAtActualAltitude q = Except.ok none := by
  obtain ⟨w, hw, hm⟩ := construct_ok_shape data m h
  subst hm
  unfold getTemperatureAtActualAltitude
  rw [if_pos (by rw [inRange_iff]; exact ⟨le_of_lt h1, h2⟩)]
  rw [built_temperatureGradient]
  rw [if_neg (fun hc => hden hc.1), if_neg (fun hc => hden hc.1)]

/-- Witness for C10 at the concrete altitude one half with the concrete test
model. -/
theorem c10_witness :
    AtmosphereModel.construct testData = Except.ok testModel
    ∧ (mkRat 1 2).den ≠ 1 ∧ (-2000 : ℚ) < mkRat 1 2 ∧ mkRat 1 2 < 65617
    ∧ testModel.getTemperatureAtActualAltitude (mkRat 1 2) = Except.ok none :=
  ⟨construct_testData, by decide, by decide, by decide,
    c10_nonInteger_altitude_undefined testData testModel construct_testData (mkRat 1 2)
      (by decide) (by decide) (by decide)⟩

end AtmosphereModel

/-- A lemma used at the layer boundary: multiplying by the numeric value 1 is
the identity, also on NaN. -/
theorem jmul_val_one (x : JNum) : jmul x (JNum.val 1) = x := by
  cases x <;> simp [jmul]

/-- Claim C2 (code bug record): with `surfaceTemperature` absent the method
assigns the default constant but then unconditionally overwrites
`_seaLevelTemperature` with the placeholder string "calculated new value", so
the constructed model never holds the documented Kelvin constant. -/
theorem c2_seaLevelTemperature_placeholder :
    AtmosphereModel._initTemperatureFromSurfaceTemperature
        (JVal.num ENVIRONMENT.DEFAULT_SEA_LEVEL_TEMPERATURE_K) none
      = JVal.str "calculated new value"
    ∧ AtmosphereModel.construct testData = Except.ok testModel
    ∧ testModel._seaLevelTemperature = JVal.str "calculated new value" :=
  ⟨rfl, construct_testData, rfl⟩

/-- Claim C3 (code bug record): with `surfaceWind` absent the method assigns
the default vector but then unconditionally reads `surfaceWind.angle`, so the
whole construction throws a TypeError instead of succeeding. -/
theorem c3_construction_throws_without_surfaceWind :
    AtmosphereModel._initWindFromSurfaceWind none
      = Except.error (JSError.typeError "Cannot read properties of undefined - reading angle")
    ∧ AtmosphereModel.construct
        { surfaceTemperature := none, surfaceElevation := none, surfaceWind := none }
      = Except.error (JSError.typeError "Cannot read properties of undefined - reading angle") :=
  ⟨rfl, rfl⟩

/-- Claim C9 (code bug record): all five unimplemented extension points have
empty bodies and silently evaluate to `undefined` (here `none`), with no
explicit not-implemented signal. -/
theorem c9_stubs_silently_return_undefined :
    AtmosphereModel.getSoundSpeedAtActualAltitude testModel = none
    ∧ AtmosphereModel.getWindAtActualAltitude testModel = none
    ∧ AtmosphereModel.getActualAltitudeForPressureAltitude testModel = none
    ∧ AtmosphereModel.getPressureAltitudeForActualAltitude testModel = none
    ∧ AtmosphereModel.getDensityAltitudeForActualAltitude testModel = none :=
  ⟨rfl, rfl, rfl, rfl, rfl⟩

/-- Claim C7 (code bug record): in the constructed model the pressure entries
are NaN (the sea-level temperature is the placeholder string, which coerces to
NaN), so the strict decrease `pressureGradient[0] > pressureGradient[1]` the
claim asserts evaluates to false. -/
theorem c7_pressure_entries_nan :
    AtmosphereModel.construct testData = Except.ok testModel
    ∧ testModel._pressureGradient 0 = some JNum.nan
    ∧ testModel._pressureGradient 1 = some JNum.nan
    ∧ jGtb (jofLookup (testModel._pressureGradient 0)) (jofLookup (testModel._pressureGradient 1)) = false :=
  ⟨construct_testData, rfl, rfl, rfl⟩

/-- Claim C8 (code bug record): in the constructed model the temperature
entries are NaN for the same reason, so
`temperatureGradient[0] > temperatureGradient[1]` evaluates to false; the
constant-above-the-tropopause half does hold as a value equality. -/
theorem c8_temperature_entries_nan :
    AtmosphereModel.construct testData = Except.ok testModel
    ∧ testModel._temperatureGradient 0 = some JNum.nan
    ∧ testModel._temperatureGradient 1 = some JNum.nan
    ∧ jGtb (jofLookup (testModel._temperatureGradient 0)) (jofLookup (testModel._temperatureGradient 1)) = false
    ∧ testModel._temperatureGradient 40000 = testModel._temperatureGradient 36089
    ∧ testModel._temperatureGradient 65617 = testModel._temperatureGradient 36089 :=
  ⟨construct_testData, rfl, rfl, rfl, rfl, rfl⟩

namespace AtmosphereModel

/-- Claim C4: in any successfully constructed model, every integer altitude
from -2000 to 65617 inclusive has a density entry equal to
`11.796888418 * pressureGradient[alt] / temperatureGradient[alt]`. -/
theorem c4_densityGradient_relation (data : ConstructionData) (m : AtmosphereModel)
    (h : construct data = Except.ok m) (n : ℤ) (h1 : -2000 ≤ n) (h2 : n ≤ 65617) :
    ∃ p t, m._pressureGradient (n : ℚ) = some p ∧ m._temperatureGradient (n : ℚ) = some t ∧
      m._densityGradient (n : ℚ) = some (jdiv (jmul (JNum.val 11.796888418) p) t) := by
  obtain ⟨w, hw, hm⟩ := construct_ok_shape data m h
  subst hm
  have hden : ((n : ℚ)).den = 1 := Rat.den_intCast n
  have hnum : ((n : ℚ)).num = n := Rat.num_intCast n
  rw [built_densityGradient, built_pressureGradient, built_temperatureGradient]
  simp only [hden, hnum]
  by_cases hc : n < 36089
  · simp only [h1, h2, hc, and_true, true_and, and_self, if_true, eq_self_iff_true, if_pos]
    exact ⟨_, _, rfl, rfl, rfl⟩
  · have hge : (36089 : ℤ) ≤ n := le_of_not_lt hc
    simp only [h1, h2, hc, hge, and_true, true_and, and_false, false_and, and_self,
      if_true, if_false, eq_self_iff_true, if_pos, if_neg, not_false_iff]
    exact ⟨_, _, rfl, rfl, rfl⟩

/-- Witness for C4 at altitude 1000 in the concrete test model. -/
theorem c4_witness :
    construct testData = Except.ok testModel ∧ (-2000 : ℤ) ≤ 1000 ∧ (1000 : ℤ) ≤ 65617
    ∧ ∃ p t, testModel._pressureGradient ((1000 : ℤ) : ℚ) = some p
        ∧ testModel._temperatureGradient ((1000 : ℤ) : ℚ) = some t
        ∧ testModel._densityGradient ((1000 : ℤ) : ℚ) = some (jdiv (jmul (JNum.val 11.796888418) p) t) :=
  ⟨construct_testData, by decide, by decide,
    c4_densityGradient_relation testData testModel construct_testData 1000 (by decide) (by decide)⟩

end AtmosphereModel

namespace AtmosphereModel

/-- Claim C5: in any successfully constructed model every integer altitude from
-2000 to 65617 inclusive has an entry in each of the three gradients, every
populated pressure key is such an integer altitude, and the three gradients
have exactly the same populated keys. -/
theorem c5_gradient_domains (data : ConstructionData) (m : AtmosphereModel)
    (h : construct data = Except.ok m) :
    (∀ n : ℤ, -2000 ≤ n → n ≤ 65617 →
      (m._pressureGradient (n : ℚ)).isSome = true
      ∧ (m._temperatureGradient (n : ℚ)).isSome = true
      ∧ (m._densityGradient (n : ℚ)).isSome = true)
    ∧ (∀ q : ℚ, (m._pressureGradient q).isSome = true →
        q.den = 1 ∧ -2000 ≤ q.num ∧ q.num ≤ 65617)
    ∧ (∀ q : ℚ, ((m._pressureGradient q).isSome ↔ (m._temperatureGradient q).isSome)
        ∧ ((m._pressureGradient q).isSome ↔ (m._densityGradient q).isSome)) := by
  obtain ⟨w, hw, hm⟩ := construct_ok_shape data m h
  subst hm
  refine ⟨?_, ?_, ?_⟩
  · intro n hn1 hn2
    have hden : ((n : ℚ)).den = 1 := Rat.den_intCast n
    have hnum : ((n : ℚ)).num = n := Rat.num_intCast n
    rw [built_pressureGradient, built_temperatureGradient, built_densityGradient]
    simp only [hden, hnum]
    by_cases hc : n < 36089
    · simp [hn1, hn2, hc]
    · have hge : (36089 : ℤ) ≤ n := le_of_not_lt hc
      simp [hn1, hn2, hc, hge]
  · intro q
    rw [built_pressureGradient]
    split_ifs with hc1 hc2
    · intro _
      exact ⟨hc1.1, hc1.2.1, by omega⟩
    · intro _
      exact ⟨hc2.1, by omega, hc2.2.2⟩
    · intro hfalse
      simp at hfalse
  · intro q
    constructor
    · rw [built_pressureGradient, built_temperatureGradient]
      split_ifs <;> simp
    · rw [built_pressureGradient, built_densityGradient]
      split_ifs with hc1 hc2 hc3 <;> simp_all <;> omega

/-- Witness for C5 at altitude 0 in the concrete test model. -/
theorem c5_witness :
    construct testData = Except.ok testModel ∧ (-2000 : ℤ) ≤ 0 ∧ (0 : ℤ) ≤ 65617
    ∧ ((testModel._pressureGradient ((0 : ℤ) : ℚ)).isSome = true
      ∧ (testModel._temperatureGradient ((0 : ℤ) : ℚ)).isSome = true
      ∧ (testModel._densityGradient ((0 : ℤ) : ℚ)).isSome = true) :=
  ⟨construct_testData, by decide, by decide,
    (c5_gradient_domains testData testModel construct_testData).1 0 (by decide) (by decide)⟩

/-- Claim C6: at the boundary altitude 36089 the troposphere temperature
formula coincides with the stratosphere-layer constant and the stratosphere
pressure formula (the boundary reference pressure times e to the 0) coincides
with the troposphere barometric formula, and the constructed gradients hold
exactly those boundary values. -/
theorem c6_layer_boundary_agreement (data : ConstructionData) (m : AtmosphereModel)
    (h : construct data = Except.ok m) :
    troposphereTemperatureFormula m._seaLevelTemperature.toJNum 36089
      = stratosphereTemperatureConstant m._seaLevelTemperature.toJNum
    ∧ m._temperatureGradient (36089 : ℚ)
      = some (stratosphereTemperatureConstant m._seaLevelTemperature.toJNum)
    ∧ stratosphereBarometricFormula m._seaLevelPressure m._seaLevelTemperature.toJNum 36089
      = troposphereBarometricFormula m._seaLevelPressure m._seaLevelTemperature.toJNum 36089
    ∧ m._pressureGradient (36089 : ℚ)
      = some (stratosphereBarometricFormula m._seaLevelPressure m._seaLevelTemperature.toJNum 36089) := by
  obtain ⟨w, hw, hm⟩ := construct_ok_shape data m h
  subst hm
  refine ⟨?_, ?_, ?_, ?_⟩
  · unfold troposphereTemperatureFormula stratosphereTemperatureConstant
    norm_num
  · rw [built_temperatureGradient, if_neg (by decide), if_pos (by decide)]
    rfl
  · unfold stratosphereBarometricFormula
    have hz : ((36089 : ℤ) : ℝ) - 36089 = 0 := by norm_num
    rw [hz, mul_zero, Real.exp_zero, jmul_val_one]
  · rw [built_pressureGradient, if_neg (by decide), if_pos (by decide)]
    have hq : ((36089 : ℚ)).num = 36089 := by decide
    rw [hq]
    rfl

/-- Witness for C6 with the concrete test model. -/
theorem c6_witness :
    construct testData = Except.ok testModel
    ∧ (troposphereTemperatureFormula testModel._seaLevelTemperature.toJNum 36089
        = stratosphereTemperatureConstant testModel._seaLevelTemperature.toJNum
      ∧ testModel._temperatureGradient (36089 : ℚ)
        = some (stratosphereTemperatureConstant testModel._seaLevelTemperature.toJNum)
      ∧ stratosphereBarometricFormula testModel._seaLevelPressure testModel._seaLevelTemperature.toJNum 36089
        = troposphereBarometricFormula testModel._seaLevelPressure testModel._seaLevelTemperature.toJNum 36089
      ∧ testModel._pressureGradient (36089 : ℚ)
        = some (stratosphereBarometricFormula testModel._seaLevelPressure testModel._seaLevelTemperature.toJNum 36089)) :=
  ⟨construct_testData, c6_layer_boundary_agreement testData testModel construct_testData⟩

end AtmosphereModel
